import Mathlib

/-!
Shallow embedding of the brevdev/launchables notebooks.

The repository is a set of Jupyter notebooks.  The fragments embedded here
are the pieces of original logic the notebooks contain:

* `src/mistral-finetune-nemo.ipynb`: `write_jsonl`, `form_question`,
  `convert_to_jsonl` (PubMedQA → JSONL data conversion);
* `src/mixtral-finetune-own-data.ipynb`: `formatting_func`,
  `generate_and_tokenize_prompt2`, the `LoraConfig` and
  `TrainingArguments` configuration values;
* `src/biomistral.ipynb`: the final inference cell.

Python dictionaries loaded from JSON are modelled as structures with
`Option`-typed fields (a `none` field models an absent key, and reading it
models a `KeyError`); Python exceptions are modelled by `Option`/failure
propagation; the file system effect of `write_jsonl` is modelled as an
explicit list of (path, content) write events, so that "no write happened"
is visible as an empty event list.  External library functions (the
tokenizer, `model.generate`, `tokenizer.decode`) are parameters of the
embedded cells; `json.dumps` is modelled concretely below, following
CPython's `json` encoder with its default options (`ensure_ascii=True`,
separators `", "` and `": "`).
-/

/-- Concatenation of a list of strings in order (the content a sequence of
`f.write` calls leaves in a file, and the body of a JSON string). -/
def strConcat : List String → String
  | [] => ""
  | s :: rest => s ++ strConcat rest

/-- The lowercase hex digit of the low nibble of `n`, as used by CPython's
`'\\u%04x'` escape: code 48 is the digit 0 and code 87 + 10 is the letter a. -/
def hexDigit (n : Nat) : Char :=
  if n % 16 < 10 then Char.ofNat (48 + n % 16) else Char.ofNat (87 + n % 16)

/-- One `\uXXXX` escape for the 16-bit value `n`, as produced by CPython's
`json` encoder. -/
def escUnicode (n : Nat) : String :=
  String.mk ['\\', 'u', hexDigit (n / 4096), hexDigit (n / 256), hexDigit (n / 16), hexDigit n]

/-- Escape of a single character under CPython's
`json.encoder.py_encode_basestring_ascii` (default `json.dumps` path):
backslash, quote and the five short escapes; printable ASCII kept; every
other character as `\uXXXX`, with a surrogate pair above U+FFFF. -/
def py_escape_char (c : Char) : String :=
  if c = '\\' then "\\\\"
  else if c = '"' then "\\\""
  else if c = '\x08' then "\\b"
  else if c = '\x0c' then "\\f"
  else if c = '\n' then "\\n"
  else if c = '\r' then "\\r"
  else if c = '\t' then "\\t"
  else if 0x20 ≤ c.toNat ∧ c.toNat ≤ 0x7e then String.singleton c
  else if c.toNat < 0x10000 then escUnicode c.toNat
  else escUnicode (0xd800 + (c.toNat - 0x10000) / 0x400) ++ escUnicode (0xdc00 + (c.toNat - 0x10000) % 0x400)

/-- CPython's `json` encoding of a Python `str` with `ensure_ascii=True`:
a double-quoted string of per-character escapes. -/
def py_encode_basestring_ascii (s : String) : String :=
  "\"" ++ strConcat (s.data.map py_escape_char) ++ "\""

/-- One record of the PubMedQA JSON files read by
`src/mistral-finetune-nemo.ipynb`.  Each field is `Option`-typed: `none`
models the key being absent from the dictionary, and reading a `none`
field models the `KeyError` the notebook would raise. -/
structure PubMedRecord where
  QUESTION : Option String
  LABELS : Option (List String)
  CONTEXTS : Option (List String)
  reasoning_required_pred : Option String
deriving Repr, DecidableEq

/-- The loop body of `form_question`:
`for i, label in enumerate(obj['LABELS']): st += f"{obj['CONTEXTS'][i]}\n"`.
The pairs are `enumerate`'s (index, label) pairs; `obj['CONTEXTS']` is
looked up inside the loop body (so a missing `CONTEXTS` key only raises
when the loop runs at least once), and indexing out of range fails. -/
def contextLoop (obj : PubMedRecord) : List (Nat × String) → String → Option String
  | [], st => some st
  | (i, _label) :: rest, st => do
    let contexts ← obj.CONTEXTS
    let c ← contexts[i]?
    contextLoop obj rest (st ++ c ++ "\n")

/-- Embedding of `form_question` from `src/mistral-finetune-nemo.ipynb`:
  ```
  def form_question(obj):
    st = ""
    st += f"QUESTION:{obj['QUESTION']}\n"
    st += "CONTEXT: "
    for i, label in enumerate(obj['LABELS']):
        st += f"{obj['CONTEXTS'][i]}\n"
    st += f"TARGET: the answer to the question given the context is (yes|no|maybe): "
    return st
  ``` -/
def form_question (obj : PubMedRecord) : Option String := do
  let question ← obj.QUESTION
  let labels ← obj.LABELS
  let st := "" ++ "QUESTION:" ++ question ++ "\n" ++ "CONTEXT: "
  let st ← contextLoop obj labels.enum st
  pure (st ++ "TARGET: the answer to the question given the context is (yes|no|maybe): ")

/-- One element of the `json_objs` list built by `convert_to_jsonl`:
the Python dictionary `{"input": prompt, "output": completion}`. -/
structure JsonObj where
  input : String
  output : String
deriving Repr, DecidableEq

/-- CPython `json.dumps` (default options) of the two-field dictionary
`{"input": o.input, "output": o.output}`: braces around the two
`key: value` items joined by `", "`, keys and values encoded by
`py_encode_basestring_ascii`. -/
def json_dumps_obj (o : JsonObj) : String :=
  "\x7b" ++ py_encode_basestring_ascii "input" ++ ": " ++ py_encode_basestring_ascii o.input
    ++ ", " ++ py_encode_basestring_ascii "output" ++ ": " ++ py_encode_basestring_ascii o.output
    ++ "\x7d"

/-- The file content left by `write_jsonl`'s loop
`for o in json_objs: f.write(json.dumps(o)+"\n")`. -/
def jsonl_content (json_objs : List JsonObj) : String :=
  strConcat (json_objs.map (fun o => json_dumps_obj o ++ "\n"))

/-- Embedding of `write_jsonl(fname, json_objs)` from
`src/mistral-finetune-nemo.ipynb` as a file-system effect: opening `fname`
  for writing and emitting the serialized objects, one per `f.write`, is one
write event carrying the resulting content. -/
def write_jsonl (fname : String) (json_objs : List JsonObj) : List (String × String) :=
  [(fname, jsonl_content json_objs)]

/-- The body of `convert_to_jsonl`'s loop for one record:
`prompt = form_question(obj); completion = obj['reasoning_required_pred']`,
then the appended dictionary `{"input": prompt, "output": completion}`.
A failure of either step propagates. -/
def convertStep (obj : PubMedRecord) : Option JsonObj := do
  let prompt ← form_question obj
  let completion ← obj.reasoning_required_pred
  pure { input := prompt, output := completion }

/-- The loop `for k in data.keys(): ... json_objs.append(...)` of
`convert_to_jsonl`, with `acc` the `json_objs` list built so far.  The
input mapping is a list of (key, record) pairs in the dictionary's key
order.  A failing record aborts the whole loop with no result. -/
def convertLoop : List (String × PubMedRecord) → List JsonObj → Option (List JsonObj)
  | [], acc => some acc
  | (_k, obj) :: rest, acc => do
    let o ← convertStep obj
    convertLoop rest (acc ++ [o])

/-- Embedding of `convert_to_jsonl(data_path, output_path)` from
`src/mistral-finetune-nemo.ipynb`.  `data` is the mapping `json.load`
returns from `data_path`, as (key, record) pairs in key order.  The result
pairs the returned `json_objs` (or `none` when an exception propagated)
with the list of file write events performed: `write_jsonl` runs only
after the loop over every record has finished, so a failing loop performs
no write. -/
def convert_to_jsonl (data : List (String × PubMedRecord)) (output_path : String) :
    Option (List JsonObj) × List (String × String) :=
  match convertLoop data [] with
  | none => (none, [])
  | some json_objs => (some json_objs, write_jsonl output_path json_objs)

namespace Mixtral

/-- One record of the dataset loaded by
`src/mixtral-finetune-own-data.ipynb`: the `note` field read by
`formatting_func`, plus whatever other fields the JSONL record carries
(modelled as an association list, never read by the notebook's code). -/
structure NoteRecord where
  note : String
  other_fields : List (String × String)
deriving Repr, DecidableEq

/-- Embedding of `formatting_func` from
`src/mixtral-finetune-own-data.ipynb`:
  ```
  def formatting_func(example):
    text = f"### The following is a note by Eevee the Dog: {example['note']}"
    return text
The source's parameter is named `example`, a keyword in Lean, so the
binder is `ex` here. -/
def formatting_func (ex : NoteRecord) : String :=
  "### The following is a note by Eevee the Dog: " ++ ex.note

/-- The notebook's `max_length = 512`. -/
def max_length : Nat := 512

/-- The dict-like object the external Hugging Face tokenizer returns,
augmented with the optional `labels` key the notebook may add.  The
tokenizer itself produces `input_ids`, `attention_mask` and possibly
further integer-sequence fields, and no `labels` key. -/
structure TokenizedRecord where
  input_ids : List Nat
  attention_mask : List Nat
  other_fields : List (String × List Nat)
  labels : Option (List Nat)
deriving Repr, DecidableEq

/-- Embedding of `generate_and_tokenize_prompt2` from
`src/mixtral-finetune-own-data.ipynb`:
  ```
  def generate_and_tokenize_prompt2(prompt):
    result = tokenizer(formatting_func(prompt), truncation=True,
                       max_length=max_length, padding="max_length")
    result["labels"] = result["input_ids"].copy()
    return result
  ```
The external `tokenizer` is a parameter, applied to the formatted text and
the keyword arguments `truncation=True`, `max_length=max_length`,
`padding="max_length"`.  `.copy()` of a Python list is the identity on the
immutable list value. -/
def generate_and_tokenize_prompt2
    (tokenizer : String → Bool → Nat → String → TokenizedRecord)
    (prompt : NoteRecord) : TokenizedRecord :=
  let result := tokenizer (formatting_func prompt) true max_length "max_length"
  { result with labels := some result.input_ids }

/-- The keyword arguments of the `peft.LoraConfig(...)` constructed in
`src/mixtral-finetune-own-data.ipynb`. -/
structure LoraConfig where
  r : Nat
  lora_alpha : Nat
  target_modules : List String
  bias : String
  lora_dropout : ℚ
  task_type : String
deriving Repr, DecidableEq

/-- The notebook's `config = LoraConfig(r=32, lora_alpha=64, ...)`,
transcribed field by field. -/
def config : LoraConfig :=
  { r := 32
    lora_alpha := 64
    target_modules := ["q_proj", "k_proj", "v_proj", "o_proj", "w1", "w2", "w3", "lm_head"]
    bias := "none"
    lora_dropout := 0.05
    task_type := "CAUSAL_LM" }

/-- The value the external `peft.get_peft_model(model, config)` call
receives: the base model together with the LoRA configuration handed over
verbatim.  `M` stands for the external model object's type. -/
structure PeftModel (M : Type) where
  base_model : M
  lora_config : LoraConfig

/-- Modelling of the external `peft.get_peft_model`: it records the model
and the configuration object passed to it. -/
def get_peft_model (M : Type) (model : M) (c : LoraConfig) : PeftModel M :=
  { base_model := model, lora_config := c }

/-- The notebook's `model = get_peft_model(model, config)` call, for an
arbitrary external base model. -/
def peft_model (M : Type) (model : M) : PeftModel M :=
  get_peft_model M model config

/-- The notebook's `project = "journal-finetune"`. -/
def project : String := "journal-finetune"

/-- The notebook's `base_model_name = "mixtral"`. -/
def base_model_name : String := "mixtral"

/-- The notebook's `run_name = base_model_name + "-" + project`. -/
def run_name : String := base_model_name ++ "-" ++ project

/-- The notebook's `output_dir = "./" + run_name`. -/
def output_dir : String := "./" ++ run_name

/-- The keyword arguments of the `transformers.TrainingArguments(...)`
constructed inline in the `transformers.Trainer(...)` call of
`src/mixtral-finetune-own-data.ipynb`. -/
structure TrainingArguments where
  output_dir : String
  warmup_steps : Nat
  per_device_train_batch_size : Nat
  gradient_accumulation_steps : Nat
  gradient_checkpointing : Bool
  max_steps : Nat
  learning_rate : ℚ
  fp16 : Bool
  optim : String
  logging_steps : Nat
  logging_dir : String
  save_strategy : String
  save_steps : Nat
  evaluation_strategy : String
  eval_steps : Nat
  do_eval : Bool
  report_to : String
  run_name : String
deriving Repr, DecidableEq

/-- The `TrainingArguments` value the notebook passes to
`transformers.Trainer`, transcribed field by field; `timestamp` stands for
the external `datetime.now().strftime('%Y-%m-%d-%H-%M')` in the run name's
f-string. -/
def training_arguments (timestamp : String) : TrainingArguments :=
  { output_dir := output_dir
    warmup_steps := 1
    per_device_train_batch_size := 2
    gradient_accumulation_steps := 1
    gradient_checkpointing := true
    max_steps := 300
    learning_rate := 2.5e-5
    fp16 := true
    optim := "paged_adamw_8bit"
    logging_steps := 25
    logging_dir := "./logs"
    save_strategy := "steps"
    save_steps := 25
    evaluation_strategy := "steps"
    eval_steps := 25
    do_eval := true
    report_to := "wandb"
    run_name := run_name ++ "-" ++ timestamp }

/-- The arguments the external `transformers.Trainer(...)` call receives
from the notebook that the claims are about: the `TrainingArguments`
object, handed over verbatim. -/
structure Trainer where
  args : TrainingArguments
deriving Repr, DecidableEq

/-- The notebook's `trainer = transformers.Trainer(model=model, ...,
args=transformers.TrainingArguments(...), ...)` call, keeping the
configuration object it receives. -/
def trainer (timestamp : String) : Trainer :=
  { args := training_arguments timestamp }

end Mixtral

namespace BioMistral

/-- The notebook's `eval_prompt = "The best way to "`. -/
def eval_prompt : String := "The best way to "

/-- The `max_new_tokens=100` keyword of the `model.generate` call. -/
def max_new_tokens : Nat := 100

/-- The `repetition_penalty=1.15` keyword of the `model.generate` call. -/
def repetition_penalty : ℚ := 1.15

/-- Embedding of the final inference cell of `src/biomistral.ipynb`:
  ```
eval_prompt = "The best way to "
model_input = eval_tokenizer(eval_prompt, return_tensors="pt").to("cuda")
model.eval()
with torch.no_grad():
    print(eval_tokenizer.decode(model.generate(**model_input,
        max_new_tokens=100, repetition_penalty=1.15)[0],
        skip_special_tokens=True))
  ```
The external pieces are parameters: `eval_tokenizer_encode` is the
tokenization of the prompt, `model_generate` takes the model input and the
keywords `max_new_tokens` and `repetition_penalty` and returns the batch
of generated sequences, and `decode` is `eval_tokenizer.decode` with its
`skip_special_tokens` flag.  `[0]` is Python indexing into the batch,
which fails on an empty batch; the result is the text printed. -/
def printed_text (eval_tokenizer_encode : String → List Nat)
    (model_generate : List Nat → Nat → ℚ → List (List Nat))
    (decode : List Nat → Bool → String) : Option String := do
  let model_input := eval_tokenizer_encode eval_prompt
  let seqs := model_generate model_input max_new_tokens repetition_penalty
  let first ← seqs[0]?
  pure (decode first true)

end BioMistral

lemma str_data_append (a b : String) : (a ++ b).data = a.data ++ b.data := String.data_append a b

lemma str_append_assoc (a b c : String) : a ++ b ++ c = a ++ (b ++ c) := by
  apply String.ext
  simp [str_data_append]

lemma str_empty_append (s : String) : "" ++ s = s := by
  apply String.ext
  simp [str_data_append]

lemma str_append_empty (s : String) : s ++ "" = s := by
  apply String.ext
  simp [str_data_append]

lemma contextLoop_sound (obj : PubMedRecord) (cs : List String) (hc : obj.CONTEXTS = some cs) :
    ∀ (ls : List String) (n : Nat) (st : String), n + ls.length ≤ cs.length →
      contextLoop obj (List.enumFrom n ls) st
        = some (st ++ strConcat (((cs.drop n).take ls.length).map (fun c => c ++ "\n")))
  | [], n, st, _h => by
      simp [contextLoop, strConcat, str_append_empty]
  | l :: ls, n, st, h => by
      have hn : n < cs.length := by
        simp only [List.length_cons] at h
        omega
      have ih := contextLoop_sound obj cs hc ls (n + 1) (st ++ (cs[n] ++ "\n"))
        (by simp only [List.length_cons] at h; omega)
      simp only [List.enumFrom, contextLoop, hc, Option.bind_eq_bind', Option.some_bind',
        List.getElem?_eq_getElem hn, ih, List.drop_eq_getElem_cons hn, List.take_succ_cons,
        List.map_cons, strConcat, str_append_assoc]

lemma contextLoop_oob (obj : PubMedRecord) (cs : List String) (hc : obj.CONTEXTS = some cs) :
    ∀ (ls : List String) (n : Nat) (st : String), n ≤ cs.length → cs.length < n + ls.length →
      contextLoop obj (List.enumFrom n ls) st = none
  | [], n, st, hle, hlt => by
      exact absurd hlt (by simp only [List.length_nil]; omega)
  | l :: ls, n, st, hle, hlt => by
      by_cases hn : n < cs.length
      · have ih := contextLoop_oob obj cs hc ls (n + 1) (st ++ cs[n] ++ "\n")
          (by omega) (by simp only [List.length_cons] at hlt; omega)
        simp only [List.enumFrom, contextLoop, hc, Option.bind_eq_bind', Option.some_bind',
          List.getElem?_eq_getElem hn, ih]
      · have hge : cs.length ≤ n := by omega
        simp only [List.enumFrom, contextLoop, hc, Option.bind_eq_bind', Option.some_bind',
          List.getElem?_eq_none hge, Option.none_bind']

lemma contextLoop_only_contexts (obj1 obj2 : PubMedRecord) (hc : obj1.CONTEXTS = obj2.CONTEXTS) :
    ∀ (ps : List (Nat × String)) (st : String), contextLoop obj1 ps st = contextLoop obj2 ps st
  | [], _st => rfl
  | (i, l) :: rest, st => by
      simp only [contextLoop, hc]
      cases obj2.CONTEXTS with
      | none => rfl
      | some cs =>
        simp only [Option.bind_eq_bind', Option.some_bind']
        cases cs[i]? with
        | none => rfl
        | some c =>
          simp only [Option.some_bind']
          exact contextLoop_only_contexts obj1 obj2 hc rest (st ++ c ++ "\n")

lemma contextLoop_enum_len (obj : PubMedRecord) :
    ∀ (ls1 ls2 : List String) (n : Nat) (st : String), ls1.length = ls2.length →
      contextLoop obj (List.enumFrom n ls1) st = contextLoop obj (List.enumFrom n ls2) st
  | [], [], _n, _st, _h => rfl
  | [], l2 :: ls2, _n, _st, h => by simp at h
  | l1 :: ls1, [], _n, _st, h => by simp at h
  | l1 :: ls1, l2 :: ls2, n, st, h => by
      simp only [List.enumFrom, contextLoop]
      cases obj.CONTEXTS with
      | none => rfl
      | some cs =>
        simp only [Option.bind_eq_bind', Option.some_bind']
        cases cs[n]? with
        | none => rfl
        | some c =>
          simp only [Option.some_bind']
          exact contextLoop_enum_len obj ls1 ls2 (n + 1) (st ++ c ++ "\n")
            (by simp only [List.length_cons] at h; omega)

lemma form_question_some (obj : PubMedRecord) (q : String) (ls cs : List String)
    (hq : obj.QUESTION = some q) (hl : obj.LABELS = some ls) (hc : obj.CONTEXTS = some cs)
    (hlen : ls.length ≤ cs.length) :
    form_question obj =
      some ("QUESTION:" ++ q ++ "\n" ++ "CONTEXT: "
        ++ strConcat ((cs.take ls.length).map (fun c => c ++ "\n"))
        ++ "TARGET: the answer to the question given the context is (yes|no|maybe): ") := by
  have h := contextLoop_sound obj cs hc ls 0 ("" ++ "QUESTION:" ++ q ++ "\n" ++ "CONTEXT: ")
    (by omega)
  have henum : ls.enum = List.enumFrom 0 ls := rfl
  simp only [List.drop_zero] at h
  simp only [form_question, hq, hl, Option.bind_eq_bind', Option.some_bind', henum]
  rw [h]
  simp only [Option.some_bind', Option.pure_def, str_empty_append]

lemma form_question_oob (obj : PubMedRecord) (q : String) (ls cs : List String)
    (hq : obj.QUESTION = some q) (hl : obj.LABELS = some ls) (hc : obj.CONTEXTS = some cs)
    (hlen : cs.length < ls.length) :
    form_question obj = none := by
  have h := contextLoop_oob obj cs hc ls 0 ("" ++ "QUESTION:" ++ q ++ "\n" ++ "CONTEXT: ")
    (by omega) (by omega)
  have henum : ls.enum = List.enumFrom 0 ls := rfl
  simp only [form_question, hq, hl, Option.bind_eq_bind', Option.some_bind', henum]
  rw [h]
  rfl

lemma hexDigit_ne_lf (n : Nat) : hexDigit n ≠ '\n' := by
  have h : n % 16 < 16 := Nat.mod_lt _ (by norm_num)
  revert h
  unfold hexDigit
  generalize n % 16 = m
  intro h
  interval_cases m <;> decide

lemma lf_not_mem_escUnicode (n : Nat) : '\n' ∉ (escUnicode n).data := by
  intro h
  simp only [escUnicode, List.mem_cons, List.not_mem_nil, or_false] at h
  rcases h with h | h | h | h | h | h
  · exact absurd h (by decide)
  · exact absurd h (by decide)
  · exact hexDigit_ne_lf _ h.symm
  · exact hexDigit_ne_lf _ h.symm
  · exact hexDigit_ne_lf _ h.symm
  · exact hexDigit_ne_lf _ h.symm

lemma lf_not_mem_escape_char (c : Char) : '\n' ∉ (py_escape_char c).data := by
  unfold py_escape_char
  split_ifs with h1 h2 h3 h4 h5 h6 h7 h8 h9
  · decide
  · decide
  · decide
  · decide
  · decide
  · decide
  · decide
  · intro hm
    have hd : (String.singleton c).data = [c] := rfl
    rw [hd, List.mem_singleton] at hm
    rw [← hm] at h8
    exact absurd h8.1 (by decide)
  · exact lf_not_mem_escUnicode _
  · intro hm
    rw [str_data_append] at hm
    rcases List.mem_append.mp hm with h | h
    · exact lf_not_mem_escUnicode _ h
    · exact lf_not_mem_escUnicode _ h

lemma lf_not_mem_strConcat (l : List String) (h : ∀ s ∈ l, '\n' ∉ s.data) :
    '\n' ∉ (strConcat l).data := by
  induction l with
  | nil => simp [strConcat]
  | cons s rest ih =>
    intro hm
    rw [strConcat, str_data_append] at hm
    rcases List.mem_append.mp hm with hmem | hmem
    · exact h s (by simp) hmem
    · exact ih (fun t ht => h t (by simp [ht])) hmem

lemma lf_not_mem_encode (s : String) : '\n' ∉ (py_encode_basestring_ascii s).data := by
  intro hm
  rw [py_encode_basestring_ascii, str_data_append, str_data_append] at hm
  rcases List.mem_append.mp hm with hmem | hmem
  · rcases List.mem_append.mp hmem with hmem2 | hmem2
    · exact absurd hmem2 (by decide)
    · refine lf_not_mem_strConcat _ ?_ hmem2
      intro t ht
      obtain ⟨c, _hc, rfl⟩ := List.mem_map.mp ht
      exact lf_not_mem_escape_char c
  · exact absurd hmem (by decide)

lemma lf_not_mem_dumps (o : JsonObj) : '\n' ∉ (json_dumps_obj o).data := by
  intro hm
  rw [json_dumps_obj] at hm
  rw [str_data_append, str_data_append, str_data_append, str_data_append, str_data_append,
    str_data_append, str_data_append, str_data_append] at hm
  rcases List.mem_append.mp hm with h | h
  · rcases List.mem_append.mp h with h | h
    · rcases List.mem_append.mp h with h | h
      · rcases List.mem_append.mp h with h | h
        · rcases List.mem_append.mp h with h | h
          · rcases List.mem_append.mp h with h | h
            · rcases List.mem_append.mp h with h | h
              · rcases List.mem_append.mp h with h | h
                · exact absurd h (by decide)
                · exact lf_not_mem_encode "input" h
              · exact absurd h (by decide)
            · exact lf_not_mem_encode o.input h
          · exact absurd h (by decide)
        · exact lf_not_mem_encode "output" h
      · exact absurd h (by decide)
    · exact lf_not_mem_encode o.output h
  · exact absurd h (by decide)

/-- The object `convertStep` appends for a record whose processing succeeds
(with a default for the impossible failing case). -/
def convertStepD (obj : PubMedRecord) : JsonObj :=
  (convertStep obj).getD { input := "", output := "" }

lemma convertStep_eq (obj : PubMedRecord) (p r : String)
    (hp : form_question obj = some p) (hr : obj.reasoning_required_pred = some r) :
    convertStep obj = some { input := p, output := r } := by
  simp only [convertStep, hp, hr, Option.bind_eq_bind', Option.some_bind', Option.pure_def]

lemma convertLoop_sound :
    ∀ (data : List (String × PubMedRecord)), (∀ kv ∈ data, (convertStep kv.2).isSome) →
      ∀ acc : List JsonObj, convertLoop data acc = some (acc ++ data.map (fun kv => convertStepD kv.2))
  | [], _h, acc => by simp [convertLoop]
  | (k, obj) :: rest, h, acc => by
      have hstep : (convertStep obj).isSome := h (k, obj) (by simp)
      obtain ⟨o, ho⟩ := Option.isSome_iff_exists.mp hstep
      have ih := convertLoop_sound rest (fun kv hkv => h kv (by simp [hkv])) (acc ++ [o])
      simp only [convertLoop, ho, Option.bind_eq_bind', Option.some_bind', ih, List.map_cons,
        convertStepD]
      simp [List.append_assoc]

lemma convertLoop_none :
    ∀ (data : List (String × PubMedRecord)), (∃ kv ∈ data, convertStep kv.2 = none) →
      ∀ acc : List JsonObj, convertLoop data acc = none
  | [], h, _acc => by simp at h
  | (k, obj) :: rest, h, acc => by
      obtain ⟨kv, hkv, hnone⟩ := h
      rcases List.mem_cons.mp hkv with heq | hmem
      · subst heq
        simp only [convertLoop, hnone, Option.bind_eq_bind', Option.none_bind']
      · cases hs : convertStep obj with
        | none => simp only [convertLoop, hs, Option.bind_eq_bind', Option.none_bind']
        | some o =>
          have ih := convertLoop_none rest ⟨kv, hmem, hnone⟩ (acc ++ [o])
          simp only [convertLoop, hs, Option.bind_eq_bind', Option.some_bind', ih]

/-- C1: for a record with 'QUESTION', 'LABELS' and 'CONTEXTS' present and at
least as many contexts as labels, `form_question` returns exactly the fixed
template interpolated with the record's fields: "QUESTION:" ++ question ++
newline ++ "CONTEXT: " ++ the concatenation of contexts[i] ++ newline for i
below the number of labels, ++ the fixed TARGET tail. -/
theorem form_question_is_template (obj : PubMedRecord) (q : String) (ls cs : List String)
    (hq : obj.QUESTION = some q) (hl : obj.LABELS = some ls) (hc : obj.CONTEXTS = some cs)
    (hlen : ls.length ≤ cs.length) :
    form_question obj =
      some ("QUESTION:" ++ q ++ "\n" ++ "CONTEXT: "
        ++ strConcat ((cs.take ls.length).map (fun c => c ++ "\n"))
        ++ "TARGET: the answer to the question given the context is (yes|no|maybe): ") :=
  form_question_some obj q ls cs hq hl hc hlen

/-- Witness record for the C1 theorem. -/
def w1_rec : PubMedRecord :=
  { QUESTION := some "Q", LABELS := some ["yes"], CONTEXTS := some ["c1", "c2"],
    reasoning_required_pred := some "maybe" }

/-- Witness for C1 at a concrete record. -/
theorem form_question_is_template_witness :
    form_question w1_rec =
      some ("QUESTION:" ++ "Q" ++ "\n" ++ "CONTEXT: "
        ++ strConcat (((["c1", "c2"] : List String).take 1).map (fun c => c ++ "\n"))
        ++ "TARGET: the answer to the question given the context is (yes|no|maybe): ") :=
  form_question_is_template w1_rec "Q" ["yes"] ["c1", "c2"] rfl rfl rfl (by decide)

/-- C2: when every record of the input mapping has the fields
`form_question` needs (with enough contexts) plus 'reasoning_required_pred',
`convert_to_jsonl` writes at `output_path` exactly the concatenation, in the
mapping's key order, of one `json.dumps` serialization per record followed
by a newline; each serialized object has exactly the fields "input" and
"output", "input" is `form_question` of the record and "output" is the
record's 'reasoning_required_pred'; and no serialization contains a newline
character, so the file has exactly one JSON object per line. -/
theorem convert_to_jsonl_jsonl_format (data : List (String × PubMedRecord)) (output_path : String)
    (h : ∀ kv ∈ data, ∃ q ls cs r, kv.2.QUESTION = some q ∧ kv.2.LABELS = some ls
      ∧ kv.2.CONTEXTS = some cs ∧ ls.length ≤ cs.length
      ∧ kv.2.reasoning_required_pred = some r) :
    convert_to_jsonl data output_path
      = (some (data.map (fun kv => convertStepD kv.2)),
         [(output_path, jsonl_content (data.map (fun kv => convertStepD kv.2)))])
    ∧ (∀ kv ∈ data, form_question kv.2 = some (convertStepD kv.2).input
        ∧ kv.2.reasoning_required_pred = some (convertStepD kv.2).output)
    ∧ (∀ o ∈ data.map (fun kv => convertStepD kv.2), '\n' ∉ (json_dumps_obj o).data) := by
  have hsome : ∀ kv ∈ data, (convertStep kv.2).isSome := by
    intro kv hkv
    obtain ⟨q, ls, cs, r, hq, hl, hc, hlen, hr⟩ := h kv hkv
    rw [convertStep_eq kv.2 _ r (form_question_some kv.2 q ls cs hq hl hc hlen) hr]
    rfl
  have hloop := convertLoop_sound data hsome []
  rw [List.nil_append] at hloop
  refine ⟨by simp [convert_to_jsonl, hloop, write_jsonl], ?_, ?_⟩
  · intro kv hkv
    obtain ⟨q, ls, cs, r, hq, hl, hc, hlen, hr⟩ := h kv hkv
    have hstep := convertStep_eq kv.2 _ r (form_question_some kv.2 q ls cs hq hl hc hlen) hr
    constructor
    · rw [convertStepD, hstep, Option.getD_some, form_question_some kv.2 q ls cs hq hl hc hlen]
    · rw [convertStepD, hstep, Option.getD_some, hr]
  · intro o _ho
    exact lf_not_mem_dumps o

/-- Witness record for the C2 theorem. -/
def w2_rec : PubMedRecord :=
  { QUESTION := some "Q", LABELS := some ["l"], CONTEXTS := some ["c"],
    reasoning_required_pred := some "yes" }

/-- Witness for C2 at a one-record mapping. -/
theorem convert_to_jsonl_jsonl_format_witness :
    (convert_to_jsonl [("k", w2_rec)] "pubmedqa_train.jsonl"
      = (some ([("k", w2_rec)].map (fun kv => convertStepD kv.2)),
         [("pubmedqa_train.jsonl", jsonl_content ([("k", w2_rec)].map (fun kv => convertStepD kv.2)))]))
    ∧ (∀ kv ∈ [("k", w2_rec)], form_question kv.2 = some (convertStepD kv.2).input
        ∧ kv.2.reasoning_required_pred = some (convertStepD kv.2).output)
    ∧ (∀ o ∈ [("k", w2_rec)].map (fun kv => convertStepD kv.2), '\n' ∉ (json_dumps_obj o).data) :=
  convert_to_jsonl_jsonl_format [("k", w2_rec)] "pubmedqa_train.jsonl"
    (by
      intro kv hkv
      rw [List.mem_singleton] at hkv
      subst hkv
      exact ⟨"Q", ["l"], ["c"], "yes", rfl, rfl, rfl, by decide, rfl⟩)

/-- C3: `formatting_func` returns exactly the fixed template prefixed to the
record's 'note' field, and its result depends on no other field: two records
with equal 'note' values produce equal prompts. -/
theorem formatting_func_template (e1 e2 : Mixtral.NoteRecord) (h : e1.note = e2.note) :
    Mixtral.formatting_func e1 = "### The following is a note by Eevee the Dog: " ++ e1.note
    ∧ Mixtral.formatting_func e1 = Mixtral.formatting_func e2 :=
  ⟨rfl, by simp [Mixtral.formatting_func, h]⟩

/-- Witness for C3: two records with the same note but different other
fields produce the same prompt. -/
theorem formatting_func_template_witness :
    Mixtral.formatting_func { note := "walked to the park", other_fields := [] }
        = "### The following is a note by Eevee the Dog: " ++ "walked to the park"
    ∧ Mixtral.formatting_func { note := "walked to the park", other_fields := [] }
        = Mixtral.formatting_func { note := "walked to the park", other_fields := [("mood", "happy")] } :=
  formatting_func_template { note := "walked to the park", other_fields := [] }
    { note := "walked to the park", other_fields := [("mood", "happy")] } rfl

/-- C4: `generate_and_tokenize_prompt2` returns the external tokenizer's
  result modified only by adding the 'labels' field, a copy of the
tokenizer's 'input_ids'; 'input_ids', 'attention_mask' and every other
tokenizer field pass through unchanged. -/
theorem generate_and_tokenize_prompt2_adds_only_labels
    (tokenizer : String → Bool → Nat → String → Mixtral.TokenizedRecord)
    (prompt : Mixtral.NoteRecord) :
    (Mixtral.generate_and_tokenize_prompt2 tokenizer prompt).labels
        = some (tokenizer (Mixtral.formatting_func prompt) true Mixtral.max_length "max_length").input_ids
    ∧ (Mixtral.generate_and_tokenize_prompt2 tokenizer prompt).input_ids
        = (tokenizer (Mixtral.formatting_func prompt) true Mixtral.max_length "max_length").input_ids
    ∧ (Mixtral.generate_and_tokenize_prompt2 tokenizer prompt).attention_mask
        = (tokenizer (Mixtral.formatting_func prompt) true Mixtral.max_length "max_length").attention_mask
    ∧ (Mixtral.generate_and_tokenize_prompt2 tokenizer prompt).other_fields
        = (tokenizer (Mixtral.formatting_func prompt) true Mixtral.max_length "max_length").other_fields :=
  ⟨rfl, rfl, rfl, rfl⟩

/-- C6: the LoRA configuration handed to `get_peft_model` carries exactly
r = 32 and lora_alpha = 64, and the `TrainingArguments` handed to the
trainer carry exactly max_steps = 300, per_device_train_batch_size = 2 and
learning_rate = 2.5e-5; both configuration objects reach the library calls
verbatim. -/
theorem mixtral_config_static (M : Type) (model : M) (timestamp : String) :
    (Mixtral.peft_model M model).lora_config = Mixtral.config
    ∧ Mixtral.config.r = 32
    ∧ Mixtral.config.lora_alpha = 64
    ∧ (Mixtral.trainer timestamp).args = Mixtral.training_arguments timestamp
    ∧ (Mixtral.trainer timestamp).args.max_steps = 300
    ∧ (Mixtral.trainer timestamp).args.per_device_train_batch_size = 2
    ∧ (Mixtral.trainer timestamp).args.learning_rate = 2.5e-5 :=
  ⟨rfl, rfl, rfl, rfl, rfl, rfl, rfl⟩

/-- C7: whenever the generation call returns a nonempty batch, the text the
BioMistral notebook prints is exactly the decode, with special tokens
skipped, of the first sequence of a single `model.generate` call on the
tokenized eval prompt, with max_new_tokens = 100 and
repetition_penalty = 1.15, and nothing else is applied to it. -/
theorem biomistral_prints_decode_of_generate (enc : String → List Nat)
    (gen : List Nat → Nat → ℚ → List (List Nat)) (decode : List Nat → Bool → String)
    (seq : List Nat)
    (h : (gen (enc BioMistral.eval_prompt) BioMistral.max_new_tokens
      BioMistral.repetition_penalty)[0]? = some seq) :
    BioMistral.printed_text enc gen decode = some (decode seq true)
    ∧ BioMistral.eval_prompt = "The best way to "
    ∧ BioMistral.max_new_tokens = 100
    ∧ BioMistral.repetition_penalty = 1.15 := by
  refine ⟨?_, rfl, rfl, rfl⟩
  simp only [BioMistral.printed_text, h, Option.bind_eq_bind', Option.some_bind',
    Option.pure_def]

/-- Witness for C7 with concrete stand-ins for the external tokenizer,
generator and decoder. -/
theorem biomistral_prints_decode_of_generate_witness :
    BioMistral.printed_text (fun _ => []) (fun _ _ _ => [[7]]) (fun _ _ => "t") = some "t"
    ∧ BioMistral.eval_prompt = "The best way to "
    ∧ BioMistral.max_new_tokens = 100
    ∧ BioMistral.repetition_penalty = 1.15 :=
  biomistral_prints_decode_of_generate (fun _ => []) (fun _ _ _ => [[7]]) (fun _ _ => "t") [7] rfl

lemma convertStep_none_of_missing (rec : PubMedRecord)
    (hmiss : rec.QUESTION = none ∨ rec.LABELS = none ∨ rec.reasoning_required_pred = none
      ∨ (rec.CONTEXTS = none ∧ ∃ l ls, rec.LABELS = some (l :: ls))) :
    convertStep rec = none := by
  rcases hmiss with h | h | h | ⟨hcn, l, ls, hl⟩
  · simp [convertStep, form_question, h]
  · cases hq : rec.QUESTION <;> simp [convertStep, form_question, h, hq]
  · cases hfq : form_question rec <;> simp [convertStep, h, hfq]
  · cases hq : rec.QUESTION with
    | none => simp [convertStep, form_question, hq]
    | some q =>
      have hfq : form_question rec = none := by
        have henum : (l :: ls).enum = (0, l) :: List.enumFrom 1 ls := rfl
        simp [form_question, hq, hl, henum, contextLoop, hcn]
      simp [convertStep, hfq]

/-- C5 counterexample: the claim says a record lacking any of the four keys
makes `convert_to_jsonl` fail, but a record lacking 'CONTEXTS' whose
'LABELS' list is empty never reaches the contexts lookup, and the
conversion succeeds. -/
theorem convert_missing_contexts_succeeds :
    ((convert_to_jsonl
        [("k", { QUESTION := some "q", LABELS := some [], CONTEXTS := none,
                 reasoning_required_pred := some "yes" })] "pubmedqa_test.jsonl").1).isSome = true := by
  rfl

/-- C5 (amended): the conversion pipeline has no failure handling of its
own: a record lacking 'QUESTION', 'LABELS' or 'reasoning_required_pred', or
lacking 'CONTEXTS' while its 'LABELS' list is nonempty, makes
`convert_to_jsonl` propagate the lookup failure, return no result and
perform no write. -/
theorem convert_missing_key_fails (data : List (String × PubMedRecord)) (output_path : String)
    (k : String) (rec : PubMedRecord) (hmem : (k, rec) ∈ data)
    (hmiss : rec.QUESTION = none ∨ rec.LABELS = none ∨ rec.reasoning_required_pred = none
      ∨ (rec.CONTEXTS = none ∧ ∃ l ls, rec.LABELS = some (l :: ls))) :
    convert_to_jsonl data output_path = (none, []) := by
  have hstep : convertStep rec = none := convertStep_none_of_missing rec hmiss
  have hloop := convertLoop_none data ⟨(k, rec), hmem, hstep⟩ []
  simp [convert_to_jsonl, hloop]

/-- Witness for the amended C5 at a record lacking 'QUESTION'. -/
theorem convert_missing_key_fails_witness :
    convert_to_jsonl
        [("k", { QUESTION := none, LABELS := some ["l"], CONTEXTS := some ["c"],
                 reasoning_required_pred := some "yes" })] "pubmedqa_val.jsonl" = (none, []) :=
  convert_missing_key_fails _ "pubmedqa_val.jsonl" "k"
    { QUESTION := none, LABELS := some ["l"], CONTEXTS := some ["c"],
      reasoning_required_pred := some "yes" }
    (List.mem_singleton.mpr rfl) (Or.inl rfl)

/-- C8: with the three keys present, `form_question` succeeds exactly when
there are at least as many contexts as labels (otherwise the out-of-range
contexts lookup fails), and under that precondition contexts beyond the
number of labels are ignored: truncating 'CONTEXTS' to the number of labels
does not change the result. -/
theorem form_question_total_iff_enough_contexts (obj : PubMedRecord) (q : String)
    (ls cs : List String) (hq : obj.QUESTION = some q) (hl : obj.LABELS = some ls)
    (hc : obj.CONTEXTS = some cs) :
    ((form_question obj).isSome ↔ ls.length ≤ cs.length)
    ∧ (ls.length ≤ cs.length →
        form_question obj = form_question { obj with CONTEXTS := some (cs.take ls.length) }) := by
  constructor
  · constructor
    · intro hsome
      by_contra hlen
      rw [form_question_oob obj q ls cs hq hl hc (by omega)] at hsome
      simp at hsome
    · intro hlen
      rw [form_question_some obj q ls cs hq hl hc hlen]
      rfl
  · intro hlen
    have h1 := form_question_some obj q ls cs hq hl hc hlen
    have h2 := form_question_some { obj with CONTEXTS := some (cs.take ls.length) } q ls
      (cs.take ls.length) hq hl rfl (by simp [List.length_take]; omega)
    rw [h1, h2]
    simp [List.take_take]

/-- Witness record for the C8 theorem. -/
def w8_rec : PubMedRecord :=
  { QUESTION := some "Q", LABELS := some ["a"], CONTEXTS := some ["c1", "c2", "c3"],
    reasoning_required_pred := some "no" }

/-- Witness for C8 at a concrete record with more contexts than labels. -/
theorem form_question_total_iff_enough_contexts_witness :
    ((form_question w8_rec).isSome ↔ (["a"] : List String).length ≤ (["c1", "c2", "c3"] : List String).length)
    ∧ ((["a"] : List String).length ≤ (["c1", "c2", "c3"] : List String).length →
        form_question w8_rec
          = form_question { w8_rec with CONTEXTS := some ((["c1", "c2", "c3"] : List String).take (["a"] : List String).length) }) :=
  form_question_total_iff_enough_contexts w8_rec "Q" ["a"] ["c1", "c2", "c3"] rfl rfl rfl

/-- C9: the labels' values are dead in `form_question`: records with equal
'QUESTION' fields, equal 'CONTEXTS' fields and 'LABELS' lists of the same
length produce identical prompts however the label strings differ. -/
theorem form_question_label_values_dead (obj1 obj2 : PubMedRecord) (ls1 ls2 : List String)
    (hq : obj1.QUESTION = obj2.QUESTION) (hc : obj1.CONTEXTS = obj2.CONTEXTS)
    (hl1 : obj1.LABELS = some ls1) (hl2 : obj2.LABELS = some ls2)
    (hlen : ls1.length = ls2.length) :
    form_question obj1 = form_question obj2 := by
  simp only [form_question, hq, hl1, hl2, Option.bind_eq_bind']
  cases hq2 : obj2.QUESTION with
  | none => rfl
  | some q =>
    simp only [Option.some_bind']
    have henum1 : ls1.enum = List.enumFrom 0 ls1 := rfl
    have henum2 : ls2.enum = List.enumFrom 0 ls2 := rfl
    rw [henum1, henum2, contextLoop_enum_len obj1 ls1 ls2 0 _ hlen,
      contextLoop_only_contexts obj1 obj2 hc]

/-- Witness records for the C9 theorem: same question and contexts, labels
of equal length but arbitrarily different text. -/
def w9_rec1 : PubMedRecord :=
  { QUESTION := some "Q", LABELS := some ["BACKGROUND", "METHODS"],
    CONTEXTS := some ["c1", "c2"], reasoning_required_pred := some "yes" }

/-- Second witness record for the C9 theorem. -/
def w9_rec2 : PubMedRecord :=
  { QUESTION := some "Q", LABELS := some ["xxxx", "totally different"],
    CONTEXTS := some ["c1", "c2"], reasoning_required_pred := some "no" }

/-- Witness for C9 at two concrete records. -/
theorem form_question_label_values_dead_witness :
    form_question w9_rec1 = form_question w9_rec2 :=
  form_question_label_values_dead w9_rec1 w9_rec2 ["BACKGROUND", "METHODS"]
    ["xxxx", "totally different"] rfl rfl rfl rfl rfl

/-- C10: `convert_to_jsonl` is atomic with respect to its output file: when
processing any record fails (`form_question` or the
'reasoning_required_pred' lookup), the function returns no result and
performs no write at all, leaving the file at `output_path` unchanged. -/
theorem convert_to_jsonl_no_write_on_failure (data : List (String × PubMedRecord))
    (output_path : String)
    (h : ∃ kv ∈ data, form_question kv.2 = none ∨ kv.2.reasoning_required_pred = none) :
    convert_to_jsonl data output_path = (none, []) := by
  obtain ⟨kv, hkv, hfail⟩ := h
  have hstep : convertStep kv.2 = none := by
    rcases hfail with h1 | h1
    · simp [convertStep, h1]
    · cases hfq : form_question kv.2 <;> simp [convertStep, hfq, h1]
  have hloop := convertLoop_none data ⟨kv, hkv, hstep⟩ []
  simp [convert_to_jsonl, hloop]

/-- Witness record for the C10 theorem: its 'reasoning_required_pred' key
is missing, so its processing fails after `form_question` succeeded. -/
def w10_rec : PubMedRecord :=
  { QUESTION := some "Q", LABELS := some ["l"], CONTEXTS := some ["c"],
    reasoning_required_pred := none }

/-- Witness for C10 at a one-record mapping whose record fails. -/
theorem convert_to_jsonl_no_write_on_failure_witness :
    convert_to_jsonl [("k", w10_rec)] "pubmedqa_test.jsonl" = (none, []) :=
  convert_to_jsonl_no_write_on_failure [("k", w10_rec)] "pubmedqa_test.jsonl"
    ⟨("k", w10_rec), List.mem_singleton.mpr rfl, Or.inr rfl⟩
